import Mathlib

/-!
Verification of the illustrative snippets of the applied-machine-learning
tutorial notebooks: the chi-squared test example on the contingency table
[[10, 20, 30], [6, 9, 17]], and the sparse-matrix (CSR) example on a
3 x 6 integer matrix.  The library functions the snippets call
(scipy.stats.chi2_contingency, scipy.sparse.csr_matrix,
numpy.count_nonzero) are not part of the repository; they are modelled
from the formulas the notebooks and the spec document for them, over
exact rational and integer arithmetic.
-/

namespace AppliedML

/-- The contingency table literal of the chi-squared notebook:
`table = [[10, 20, 30], [6, 9, 17]]`. -/
def table92 : List (List ℚ) := [[10, 20, 30], [6, 9, 17]]

/-- Row totals of a contingency table (sum of each row). -/
def rowTotals (t : List (List ℚ)) : List ℚ := t.map List.sum

/-- Number of columns of a table, read from its first row (as scipy reads
the shape of a well-formed 2-D array). -/
def ncols (t : List (List ℚ)) : Nat := (t.headD []).length

/-- Column totals of a contingency table. -/
def colTotals (t : List (List ℚ)) : List ℚ :=
  (List.range (ncols t)).map (fun j => (t.map (fun r => r.getD j 0)).sum)

/-- Grand total of a contingency table. -/
def grandTotal (t : List (List ℚ)) : ℚ := (t.map List.sum).sum

/-- Modelled from the spec: the table of expected frequencies computed by
`chi2_contingency` (scipy is not in the repository): entry (i, j) is
row-i total times column-j total divided by the grand total. -/
def expectedFreq (t : List (List ℚ)) : List (List ℚ) :=
  (rowTotals t).map (fun ri => (colTotals t).map (fun cj => ri * cj / grandTotal t))

/-- Modelled from the spec: the Pearson chi-squared statistic, the sum
over all cells of (observed - expected)^2 / expected. -/
def chi2stat (t : List (List ℚ)) : ℚ :=
  ((t.zip (expectedFreq t)).map (fun p =>
    ((p.1.zip p.2).map (fun q => (q.1 - q.2) ^ 2 / q.2)).sum)).sum

/-- Modelled from the spec: the degrees of freedom computed by
`chi2_contingency`, in scipy's form
`expected.size - sum(expected.shape) + expected.ndim - 1` (ndim = 2). -/
def dof (t : List (List ℚ)) : Int :=
  (t.length * ncols t : Int) - ((t.length : Int) + (ncols t : Int)) + 2 - 1

/-- Modelled from the spec: `chi2_contingency` returns the statistic, the
degrees of freedom and the expected-frequency table, and raises an error
when the internally computed table of expected frequencies has a zero
element (the p-value, an incomplete-gamma integral, is not modelled). -/
def chi2_contingency (t : List (List ℚ)) : Except String (ℚ × Int × List (List ℚ)) :=
  let e := expectedFreq t
  if e.any (fun r => r.any (fun x => x == 0)) then
    Except.error ("The internally computed table of expected frequencies has a zero element.")
  else
    Except.ok (chi2stat t, dof t, e)

/-- The critical-value interpretation of the chi-squared notebook:
`if abs(stat) >= critical: print('Dependent (reject H0)')
else: print('Independent (fail to reject H0)')`. -/
def interpretStat (stat critical : ℚ) : String :=
  if critical ≤ |stat| then "Dependent (reject H0)"
  else "Independent (fail to reject H0)"

/-- The 3 x 6 dense matrix literal of the sparse-matrix notebook:
`A = array([[1, 0, 0, 1, 0, 0], [0, 0, 2, 0, 0, 1], [0, 0, 0, 2, 0, 0]])`. -/
def exampleA : List (List Int) :=
  [[1, 0, 0, 1, 0, 0], [0, 0, 2, 0, 0, 1], [0, 0, 0, 2, 0, 0]]

/-- Modelled from the spec: `numpy.count_nonzero`, the number of nonzero
elements of the array. -/
def count_nonzero (A : List (List Int)) : Nat :=
  (A.map (fun r => (r.filter (fun x => x != 0)).length)).sum

/-- Modelled from the spec: the `size` property of a numpy array, its
total number of elements. -/
def npsize (A : List (List Int)) : Nat := (A.map List.length).sum

/-- The sparsity snippet `sparsity = 1.0 - count_nonzero(A) / A.size`
under the semantics of the notebook's recorded kernel, Python 2.7.14
(language_info in the notebook metadata), where `/` on two ints is floor
division; the quotient is an int subtracted from the float 1.0. -/
def sparsityPy2 (A : List (List Int)) : ℚ :=
  1 - ((count_nonzero A / npsize A : Nat) : ℚ)

/-- Compressed sparse row representation: the shape, and for each row its
nonzero entries as (column index, value) pairs in column order; the three
scipy arrays data / indices / indptr are the flattenings below. -/
structure CSRMatrix where
  nrows : Nat
  cols : Nat
  rows : List (List (Nat × Int))
deriving DecidableEq, Repr

/-- The nonzero entries of one dense row, paired with their column
indices, starting from column index j. -/
def csrRowEntries : Nat → List Int → List (Nat × Int)
  | _, [] => []
  | j, x :: xs =>
    if x = 0 then csrRowEntries (j + 1) xs
    else (j, x) :: csrRowEntries (j + 1) xs

/-- Modelled from the spec: `scipy.sparse.csr_matrix` on a dense array,
keeping exactly the nonzero entries of each row. -/
def csr_matrix (A : List (List Int)) : CSRMatrix :=
  ⟨A.length, (A.headD []).length, A.map (csrRowEntries 0)⟩

/-- Modelled from the spec: `csr_matrix` succeeds exactly on well-formed
2-D input (all rows of equal length). -/
def csr_matrix_checked (A : List (List Int)) : Except String CSRMatrix :=
  if A.all (fun r => r.length == (A.headD []).length) then Except.ok (csr_matrix A)
  else Except.error ("2-D array required")

/-- The scipy `data` array of a CSR matrix: the nonzero values in
row-major order. -/
def CSRMatrix.data (S : CSRMatrix) : List Int :=
  (S.rows.map (fun r => r.map Prod.snd)).flatten

/-- The scipy `indices` array of a CSR matrix: the column indices of the
nonzero values in row-major order. -/
def CSRMatrix.colIndices (S : CSRMatrix) : List Nat :=
  (S.rows.map (fun r => r.map Prod.fst)).flatten

/-- The scipy `indptr` array of a CSR matrix: the row extents, i.e. the
running count of stored entries at each row boundary. -/
def CSRMatrix.indptr (S : CSRMatrix) : List Nat :=
  S.rows.scanl (fun acc r => acc + r.length) 0

/-- The stored entries as (row, column, value) triples in row-major
order: what `print(S)` displays. -/
def CSRMatrix.triples (S : CSRMatrix) : List (Nat × Nat × Int) :=
  (S.rows.enum.map (fun p => p.2.map (fun q => (p.1, q.1, q.2)))).flatten

/-- Rebuild one dense row of width n from CSR entries whose column
indices start at j. -/
def todenseRow : Nat → Nat → List (Nat × Int) → List Int
  | 0, _, _ => []
  | n + 1, j, [] => 0 :: todenseRow n (j + 1) []
  | n + 1, j, (c, v) :: rest =>
    if c = j then v :: todenseRow n (j + 1) rest
    else 0 :: todenseRow n (j + 1) ((c, v) :: rest)

/-- Modelled from the spec: the `todense()` method, rebuilding the dense
matrix from the stored entries. -/
def todense (S : CSRMatrix) : List (List Int) :=
  S.rows.map (todenseRow S.cols 0)

/-- A value printed by the dense-to-sparse snippet: either a dense matrix
or the sparse entry listing of a CSR matrix. -/
inductive PrintedVal where
  | dense (m : List (List Int))
  | sparse (entries : List (Nat × Nat × Int))
deriving DecidableEq, Repr

/-- The variable environment of the dense-to-sparse snippet: the bindings
A, S, B and the console output so far. -/
structure DtsEnv where
  A : List (List Int)
  S : Option CSRMatrix
  B : Option (List (List Int))
  printed : List PrintedVal
deriving DecidableEq, Repr

/-- The dense-to-sparse snippet, statement by statement:
`A = array(...)`; `print(A)`; `S = csr_matrix(A)`; `print(S)`;
`B = S.todense()`; `print(B)`. -/
def denseToSparseSnippet (A0 : List (List Int)) : DtsEnv :=
  let e0 : DtsEnv := ⟨A0, none, none, []⟩
  let e1 : DtsEnv := { e0 with printed := e0.printed ++ [PrintedVal.dense e0.A] }
  let e2 : DtsEnv := { e1 with S := some (csr_matrix e1.A) }
  let e3 : DtsEnv :=
    { e2 with printed := e2.printed ++ [PrintedVal.sparse ((e2.S.map CSRMatrix.triples).getD [])] }
  let e4 : DtsEnv := { e3 with B := some ((e3.S.map todense).getD []) }
  let e5 : DtsEnv := { e4 with printed := e4.printed ++ [PrintedVal.dense (e4.B.getD [])] }
  e5

/-! ### Helper lemmas for the CSR roundtrip -/

/-- Every entry produced by csrRowEntries starting at column j has column
index at least j. -/
theorem csrRowEntries_col_le (row : List Int) :
    ∀ (j : Nat) (p : Nat × Int), p ∈ csrRowEntries j row → j ≤ p.1 := by
  induction row with
  | nil => intro j p hp; simp [csrRowEntries] at hp
  | cons x xs ih =>
    intro j p hp
    by_cases hx : x = 0
    · rw [csrRowEntries, if_pos hx] at hp
      exact Nat.le_of_succ_le (ih (j + 1) p hp)
    · rw [csrRowEntries, if_neg hx] at hp
      rcases List.mem_cons.mp hp with h | h
      · rw [h]
      · exact Nat.le_of_succ_le (ih (j + 1) p h)

/-- Rebuilding a row of its own length from its CSR entries recovers the
row, for any starting column index. -/
theorem todenseRow_csrRowEntries (row : List Int) :
    ∀ j : Nat, todenseRow row.length j (csrRowEntries j row) = row := by
  induction row with
  | nil => intro j; rfl
  | cons x xs ih =>
    intro j
    by_cases hx : x = 0
    · rw [List.length_cons, csrRowEntries, if_pos hx]
      cases hE : csrRowEntries (j + 1) xs with
      | nil =>
        have hxs := ih (j + 1)
        rw [hE] at hxs
        rw [todenseRow, hxs, hx]
      | cons cv rest =>
        have hmem : cv ∈ csrRowEntries (j + 1) xs := by
          rw [hE]; exact List.mem_cons_self cv rest
        have hc : j + 1 ≤ cv.1 := csrRowEntries_col_le xs (j + 1) cv hmem
        have hne : cv.1 ≠ j := by omega
        have hxs := ih (j + 1)
        rw [hE] at hxs
        cases cv with
        | mk c v =>
          rw [todenseRow, if_neg hne, hxs, hx]
    · rw [List.length_cons, csrRowEntries, if_neg hx, todenseRow, if_pos rfl, ih (j + 1)]

/-- Mapping the row roundtrip over a rectangular list of rows is the
identity. -/
theorem map_todenseRow_csrRowEntries (n : Nat) (L : List (List Int))
    (hL : ∀ row ∈ L, row.length = n) :
    L.map (fun r => todenseRow n 0 (csrRowEntries 0 r)) = L := by
  induction L with
  | nil => rfl
  | cons r rs ih =>
    have hr : r.length = n := hL r (List.mem_cons_self r rs)
    have hrs : ∀ row ∈ rs, row.length = n := fun row hrow => hL row (List.mem_cons_of_mem r hrow)
    rw [List.map_cons, ih hrs, ← hr, todenseRow_csrRowEntries r 0]

/-! ### Evaluation helper lemmas for the chi-squared example -/

/-- The expected-frequency table of the example evaluates to exact
rationals with denominator 23. -/
theorem expectedFreq_eval :
    expectedFreq table92 =
      [[240 / 23, 435 / 23, 705 / 23], [128 / 23, 232 / 23, 376 / 23]] := by
  norm_num [expectedFreq, rowTotals, colTotals, grandTotal, ncols, table92,
    List.range_succ, List.getD]

/-- The chi-squared statistic of the example evaluates to the exact
rational 11845/43616. -/
theorem chi2stat_eval : chi2stat table92 = 11845 / 43616 := by
  norm_num [chi2stat, expectedFreq, rowTotals, colTotals, grandTotal, ncols, table92,
    List.range_succ, List.getD, List.zip]

/-- The degrees of freedom of the example evaluate to 2. -/
theorem dof_eval : dof table92 = 2 := by decide

/-- No expected frequency of the example is zero, so the error guard of
chi2_contingency is false. -/
theorem chi2_guard_eq_false :
    ((expectedFreq table92).any (fun r => r.any (fun x => x == 0))) = false := by
  rw [expectedFreq_eval]
  simp only [List.any_cons, List.any_nil, beq_iff_eq, Bool.or_eq_false_iff,
    decide_eq_false_iff_not]
  norm_num

/-- chi2_contingency on the example takes the success branch and returns
the statistic, the degrees of freedom and the expected table. -/
theorem chi2_contingency_eval :
    chi2_contingency table92 =
      Except.ok (chi2stat table92, dof table92, expectedFreq table92) := by
  simp only [chi2_contingency, chi2_guard_eq_false, Bool.false_eq_true, if_false]

/-! ### Claim theorems -/

/-- C1: For the contingency table [[10, 20, 30], [6, 9, 17]], the exact
chi-squared statistic — the sum over all six cells of
(observed - expected)^2 / expected with
expected[i][j] = (row-i total * column-j total) / 92 — equals
11845/43616 and rounds to 0.272 at three decimal places. -/
theorem chi2stat_rounds_to_272 :
    chi2stat table92 = 11845 / 43616 ∧
    (2715 : ℚ) / 10000 ≤ chi2stat table92 ∧
    chi2stat table92 < (2725 : ℚ) / 10000 ∧
    round ((1000 : ℚ) * chi2stat table92) = 272 := by
  have h := chi2stat_eval
  refine ⟨h, ?_, ?_, ?_⟩ <;> rw [h] <;> norm_num [round_eq]

/-- C2: For the 2 x 3 contingency table [[10, 20, 30], [6, 9, 17]], the
degrees of freedom computed by chi2_contingency (in scipy's form
size - sum(shape) + ndim - 1) equals the documented formula
(rows - 1) * (cols - 1) and is 2, as printed by 'dof=2'. -/
theorem dof_matches_formula :
    dof table92 = ((table92.length : Int) - 1) * ((ncols table92 : Int) - 1) ∧
    dof table92 = 2 ∧
    chi2_contingency table92 = Except.ok (chi2stat table92, 2, expectedFreq table92) := by
  refine ⟨by decide, dof_eval, ?_⟩
  rw [chi2_contingency_eval, dof_eval]

/-- C3: The sparsity snippet reproduces its recorded output: for the
3 x 6 example matrix, which has 5 nonzero entries out of 18 elements,
evaluating sparsity = 1.0 - count_nonzero(A) / A.size under the
notebook's Python 2.7.14 kernel (integer floor division) yields exactly
1.0, the value recorded in the output cell. -/
theorem sparsity_prints_one :
    count_nonzero exampleA = 5 ∧
    npsize exampleA = 18 ∧
    count_nonzero exampleA / npsize exampleA = 0 ∧
    sparsityPy2 exampleA = 1 := by
  have h : count_nonzero exampleA / npsize exampleA = 0 := rfl
  refine ⟨rfl, rfl, h, ?_⟩
  unfold sparsityPy2
  rw [h]
  norm_num

/-- C4: For every rectangular dense integer matrix A, converting to
compressed sparse row form and back, csr_matrix(A).todense(), returns a
matrix equal to A. -/
theorem csr_todense_roundtrip (A : List (List Int))
    (h : ∀ row ∈ A, row.length = (A.headD []).length) :
    todense (csr_matrix A) = A := by
  show (A.map (csrRowEntries 0)).map (todenseRow (A.headD []).length 0) = A
  rw [List.map_map]
  exact map_todenseRow_csrRowEntries (A.headD []).length A h

/-- Witness for C4: the example 3 x 6 matrix is rectangular and its CSR
roundtrip reproduces it exactly. -/
theorem csr_todense_roundtrip_witness :
    (∀ row ∈ exampleA, row.length = (exampleA.headD []).length) ∧
    todense (csr_matrix exampleA) = exampleA :=
  ⟨by decide, csr_todense_roundtrip exampleA (by decide)⟩

/-- C5: For the contingency table [[10, 20, 30], [6, 9, 17]], the
expected frequencies are exactly (row total * column total) / 92 — first
row 240/23, 435/23, 705/23 and second row 128/23, 232/23, 376/23 — and
rounded at the eighth decimal place they give the printed digits
10.43478261, 18.91304348, 30.65217391, 5.56521739, 10.08695652,
16.34782609. -/
theorem expected_freq_exact :
    expectedFreq table92 =
      [[240 / 23, 435 / 23, 705 / 23], [128 / 23, 232 / 23, 376 / 23]] ∧
    (expectedFreq table92).map (fun r => r.map (fun x => round (x * (10 : ℚ) ^ 8))) =
      [[1043478261, 1891304348, 3065217391], [556521739, 1008695652, 1634782609]] := by
  refine ⟨expectedFreq_eval, ?_⟩
  rw [expectedFreq_eval]
  norm_num [round_eq]

/-- C6: The snippets take only the success path on their literal inputs:
every cell of the contingency table is strictly positive, every expected
frequency is strictly positive, chi2_contingency returns a result rather
than its zero-expected-frequency error, and csr_matrix accepts the
well-formed 3 x 6 example matrix. -/
theorem snippets_success_path :
    (∀ r ∈ table92, ∀ x ∈ r, 0 < x) ∧
    (∀ r ∈ expectedFreq table92, ∀ x ∈ r, 0 < x) ∧
    chi2_contingency table92 = Except.ok (chi2stat table92, dof table92, expectedFreq table92) ∧
    csr_matrix_checked exampleA = Except.ok (csr_matrix exampleA) := by
  refine ⟨?_, ?_, chi2_contingency_eval, rfl⟩
  · norm_num [table92]
  · rw [expectedFreq_eval]
    norm_num

/-- C8: The dense-to-sparse snippet does not mutate its input matrix and
its only effect is console output: after S = csr_matrix(A) and
B = S.todense(), the binding A still holds the original matrix, S and B
hold the derived values, and the printed output is exactly the dense
matrix, the sparse listing, and the reconstructed dense matrix. -/
theorem dense_to_sparse_frame (A0 : List (List Int)) :
    (denseToSparseSnippet A0).A = A0 ∧
    (denseToSparseSnippet A0).S = some (csr_matrix A0) ∧
    (denseToSparseSnippet A0).B = some (todense (csr_matrix A0)) ∧
    (denseToSparseSnippet A0).printed =
      [PrintedVal.dense A0, PrintedVal.sparse (csr_matrix A0).triples,
       PrintedVal.dense (todense (csr_matrix A0))] :=
  ⟨rfl, rfl, rfl, rfl⟩

/-- C9: csr_matrix on the example 3 x 6 matrix stores exactly the five
nonzero entries and no zero entries, listed in row-major order as
(0,0)=1, (0,3)=1, (1,2)=2, (1,5)=1, (2,3)=2; equivalently its data,
indices and indptr arrays are [1,1,2,1,2], [0,3,2,5,3] and [0,2,4,5],
and every nonzero cell of the matrix appears among the stored triples. -/
theorem csr_stores_exactly_nonzeros :
    (csr_matrix exampleA).triples = [(0, 0, 1), (0, 3, 1), (1, 2, 2), (1, 5, 1), (2, 3, 2)] ∧
    (csr_matrix exampleA).data = [1, 1, 2, 1, 2] ∧
    (csr_matrix exampleA).colIndices = [0, 3, 2, 5, 3] ∧
    (csr_matrix exampleA).indptr = [0, 2, 4, 5] ∧
    ((csr_matrix exampleA).triples.all (fun p => p.2.2 != 0)) = true ∧
    ((List.range 3).all (fun i => (List.range 6).all (fun j =>
      ((exampleA.getD i []).getD j 0 == 0) ||
        decide ((i, j, (exampleA.getD i []).getD j 0) ∈ (csr_matrix exampleA).triples)))) = true := by
  refine ⟨by decide, by decide, by decide, by decide, by decide, by decide⟩

/-- C10: The critical-value interpretation prints 'Dependent (reject H0)'
if and only if abs(stat) >= critical, and prints 'Independent (fail to
reject H0)' otherwise; a statistic exactly equal to the critical value is
classified as dependent. -/
theorem interpret_stat_dependent_iff (s c : ℚ) :
    (interpretStat s c = "Dependent (reject H0)" ↔ c ≤ |s|) ∧
    (¬ c ≤ |s| → interpretStat s c = "Independent (fail to reject H0)") ∧
    interpretStat c c = "Dependent (reject H0)" := by
  refine ⟨?_, ?_, ?_⟩
  · by_cases h : c ≤ |s|
    · simp [interpretStat, h]
    · rw [interpretStat, if_neg h]
      constructor
      · intro hs; exact absurd hs (by decide)
      · intro hc; exact absurd hc h
  · intro h; rw [interpretStat, if_neg h]
  · rw [interpretStat, if_pos (le_abs_self c)]

end AppliedML
